import Mathlib

/-!
Verification of the Veldra block-template admission-control pipeline.

This file gives a shallow embedding, in Lean 4, of the parts of the Veldra
repository that the specification talks about:

* the policy data model and evaluator of `services/pool-verifier/src/policy.rs`
  (`PolicyConfig`, `FeeTier`, `VerdictReason`, `validate`,
  `effective_min_avg_fee_dynamic`, `evaluate`, `evaluate_dynamic`);
* the inline decision sequence of the verifier TCP loop of
  `services/pool-verifier/src/main.rs` (`run_tcp_server`), together with the
  verdict ring (`load_verdict_log`, the bounded push) and the CSV export
  (`get_verdicts_csv`);
* the policy startup path of `services/pool-verifier/src/state.rs` and
  `main.rs` (`load_initial_policy` and the `expect` call in `main`);
* the mempool client of `services/pool-verifier/src/mempool_client.rs`
  (`fetch_mempool_tx_count` with the serde field aliases and defaults);
* the two template sources of `services/template-manager/src/main.rs`
  (`BitcoindTemplateSource::next_template` with its fingerprint
  deduplication, and `StratumTemplateSource::next_template`).

Machine integers of the source are modelled as `Nat`, with an explicit
`% 2 ^ 64` where u64 overflow matters (the `log_id` counter).  The `f64`
field `max_weight_ratio` is modelled as `ℚ`; the only code under study that
mentions it never reads it, so no floating-point arithmetic is modelled.
-/

namespace Veldra

/-! ## Wire data model (`services/rg-protocol/src/lib.rs`) -/

/-- `PROTOCOL_VERSION` from `rg-protocol/src/lib.rs`. -/
def PROTOCOL_VERSION : Nat := 2

/-- `TemplatePropose` from `rg-protocol/src/lib.rs`.  The two optional
forward-compatibility fields are irrelevant to every claim and are omitted;
no code under study reads them. -/
structure TemplatePropose where
  version : Nat
  id : Nat
  block_height : Nat
  prev_hash : String
  coinbase_value : Nat
  tx_count : Nat
  total_fees : Nat
  deriving Repr, DecidableEq

/-! ## Policy data model (`services/pool-verifier/src/policy.rs`) -/

/-- `FeeTier` from `policy.rs`. -/
inductive FeeTier where
  | low
  | mid
  | high
  deriving Repr, DecidableEq

/-- `VerdictReason` from `policy.rs` (the pool-verifier's own enum; note that
it has no variant for a non-hex `prev_hash`). -/
inductive VerdictReason where
  | Ok
  | UnsupportedVersion (got expected : Nat)
  | PrevHashWrongLen (len expected : Nat)
  | EmptyTemplate
  | CoinbaseZero
  | TotalFeesTooLow (total min_required : Nat)
  | TooManyTransactions (count max_allowed : Nat)
  | AverageFeeTooLow (avg min_required : Nat)
  deriving Repr, DecidableEq

/-- `PolicyConfig` from `policy.rs`.  `max_weight_ratio` is an `f64` in the
source, modelled as `ℚ`; `validate` never inspects it. -/
structure PolicyConfig where
  protocol_version : Nat
  required_prevhash_len : Nat
  min_total_fees : Nat
  max_tx_count : Nat
  min_avg_fee : Nat
  low_mempool_tx : Nat
  high_mempool_tx : Nat
  tx_count_mid_threshold : Nat
  tx_count_hi_threshold : Nat
  min_avg_fee_lo : Nat
  min_avg_fee_mid : Nat
  min_avg_fee_hi : Nat
  max_weight_ratio : ℚ
  reject_empty_templates : Bool
  reject_coinbase_zero : Bool
  deriving Repr, DecidableEq

/-- `PolicyConfig::default_with_protocol` from `policy.rs`. -/
def PolicyConfig.default_with_protocol (protocol_version : Nat) : PolicyConfig where
  protocol_version := protocol_version
  required_prevhash_len := 64
  min_total_fees := 0
  max_tx_count := 10000
  min_avg_fee := 0
  low_mempool_tx := 50
  high_mempool_tx := 500
  tx_count_mid_threshold := 10
  tx_count_hi_threshold := 50
  min_avg_fee_lo := 0
  min_avg_fee_mid := 500
  min_avg_fee_hi := 2000
  max_weight_ratio := (999 : ℚ) / 1000
  reject_empty_templates := true
  reject_coinbase_zero := false

/-- `PolicyConfig::validate` from `policy.rs`.  It checks, in order:
`required_prevhash_len > 0`, `max_tx_count > 0`,
`low_mempool_tx <= high_mempool_tx`,
`tx_count_mid_threshold <= tx_count_hi_threshold`; nothing else. -/
def PolicyConfig.validate (c : PolicyConfig) : Except String Unit :=
  if c.required_prevhash_len = 0 then
    .error "required_prevhash_len must be > 0"
  else if c.max_tx_count = 0 then
    .error "max_tx_count must be > 0"
  else if c.low_mempool_tx > c.high_mempool_tx then
    .error "low_mempool_tx must be <= high_mempool_tx"
  else if c.tx_count_mid_threshold > c.tx_count_hi_threshold then
    .error "tx_count_mid_threshold must be <= tx_count_hi_threshold"
  else
    .ok ()

/-- `PolicyConfig::effective_min_avg_fee_dynamic` from `policy.rs`:
`let tx = mempool_tx.unwrap_or(0)`, then the three-way comparison against
`low_mempool_tx` and `high_mempool_tx`.  An unknown mempool (`none`) is
therefore treated exactly like a mempool of 0 transactions. -/
def PolicyConfig.effective_min_avg_fee_dynamic (c : PolicyConfig)
    (mempool_tx : Option Nat) : Nat × FeeTier :=
  let tx := mempool_tx.getD 0
  if tx < c.low_mempool_tx then (c.min_avg_fee_lo, .low)
  else if tx < c.high_mempool_tx then (c.min_avg_fee_mid, .mid)
  else (c.min_avg_fee_hi, .high)

/-- Legacy `evaluate` from `policy.rs`. -/
def evaluate (t : TemplatePropose) (c : PolicyConfig) : VerdictReason :=
  if t.version ≠ c.protocol_version then
    .UnsupportedVersion t.version c.protocol_version
  else if t.prev_hash.length ≠ c.required_prevhash_len then
    .PrevHashWrongLen t.prev_hash.length c.required_prevhash_len
  else if c.reject_empty_templates ∧ t.tx_count = 0 then
    .EmptyTemplate
  else if c.reject_coinbase_zero ∧ t.coinbase_value = 0 ∧ t.tx_count > 0 then
    .CoinbaseZero
  else if t.tx_count > c.max_tx_count then
    .TooManyTransactions t.tx_count c.max_tx_count
  else if t.total_fees < c.min_total_fees then
    .TotalFeesTooLow t.total_fees c.min_total_fees
  else if c.min_avg_fee > 0 ∧ t.tx_count > 0 ∧ t.total_fees / t.tx_count < c.min_avg_fee then
    .AverageFeeTooLow (t.total_fees / t.tx_count) c.min_avg_fee
  else
    .Ok

/-- `evaluate_dynamic` from `policy.rs`.  Returns (reason, tier chosen,
`min_avg_fee_used`).  The tier and floor are computed up front from the
optional mempool count; the rule sequence is: version, prev-hash length,
empty template, coinbase-zero (guarded by the flag and `tx_count > 0`),
max tx count, min total fees, tiered average-fee floor.  There is no check
that `prev_hash` consists of hex digits. -/
def evaluate_dynamic (t : TemplatePropose) (c : PolicyConfig)
    (mempool_tx : Option Nat) : VerdictReason × FeeTier × Nat :=
  let p := c.effective_min_avg_fee_dynamic mempool_tx
  let min_avg_fee_used := p.1
  let tier := p.2
  let reason : VerdictReason :=
    if t.version ≠ c.protocol_version then
      .UnsupportedVersion t.version c.protocol_version
    else if t.prev_hash.length ≠ c.required_prevhash_len then
      .PrevHashWrongLen t.prev_hash.length c.required_prevhash_len
    else if c.reject_empty_templates ∧ t.tx_count = 0 then
      .EmptyTemplate
    else if c.reject_coinbase_zero ∧ t.coinbase_value = 0 ∧ t.tx_count > 0 then
      .CoinbaseZero
    else if t.tx_count > c.max_tx_count then
      .TooManyTransactions t.tx_count c.max_tx_count
    else if t.total_fees < c.min_total_fees then
      .TotalFeesTooLow t.total_fees c.min_total_fees
    else if min_avg_fee_used > 0 ∧ t.tx_count > 0 ∧
        t.total_fees / t.tx_count < min_avg_fee_used then
      .AverageFeeTooLow (t.total_fees / t.tx_count) min_avg_fee_used
    else
      .Ok
  (reason, tier, min_avg_fee_used)

/-- The hex-digit predicate that the specification's rule 3 is about:
`prev_hash` must be all hex digits.  This is a specification-side
definition; no code in `src/` implements such a check. -/
def is_hex_digit (ch : Char) : Bool :=
  (('0' ≤ ch ∧ ch ≤ '9') ∨ ('a' ≤ ch ∧ ch ≤ 'f') ∨ ('A' ≤ ch ∧ ch ≤ 'F') : Prop)

/-- `prev_hash` is all hex digits (specification-side). -/
def is_all_hex (s : String) : Bool :=
  s.data.all is_hex_digit

/-! ## Verifier TCP decision path and verdict ring
(`services/pool-verifier/src/main.rs`) -/

/-- `LoggedVerdict` from `main.rs`. -/
structure LoggedVerdict where
  log_id : Nat
  template_id : Nat
  height : Nat
  total_fees : Nat
  tx_count : Nat
  accepted : Bool
  reason : Option String
  timestamp : Nat
  min_avg_fee_used : Nat
  fee_tier : String
  avg_fee_sats_per_tx : Nat
  deriving Repr, DecidableEq

/-- `compute_avg_fee_sats_per_tx` from `main.rs`. -/
def compute_avg_fee_sats_per_tx (t : TemplatePropose) : Nat :=
  if t.tx_count = 0 then 0 else t.total_fees / t.tx_count

/-- Outcome of the inline decision sequence of the verifier's TCP loop. -/
structure TcpDecision where
  accepted : Bool
  reason : VerdictReason
  min_avg_fee_used : Nat
  fee_tier : FeeTier
  avg_fee : Nat
  deriving Repr, DecidableEq

/-- The inline decision sequence of `run_tcp_server` in `main.rs`
(lines 244-295): tier floor up front, then the `if accepted && …` cascade
(0) reject empty iff `reject_empty_templates`, (0.5) `coinbase_value == 0`
unconditionally, (1) `total_fees < min_total_fees`, (2) `tx_count >
max_tx_count`, (3) `avg_fee < min_avg_fee_used`.  Note that this path never
consults `evaluate_dynamic`, never checks `version` or `prev_hash`, ignores
the `reject_coinbase_zero` flag, and orders the fee check before the
tx-count check. -/
def tcp_decide (cfg : PolicyConfig) (t : TemplatePropose)
    (mempool_tx_count : Option Nat) : TcpDecision :=
  let p := cfg.effective_min_avg_fee_dynamic mempool_tx_count
  let min_avg_fee_used := p.1
  let fee_tier := p.2
  let avg_fee := compute_avg_fee_sats_per_tx t
  let reason : VerdictReason :=
    if cfg.reject_empty_templates ∧ t.tx_count = 0 then
      .EmptyTemplate
    else if t.coinbase_value = 0 then
      .CoinbaseZero
    else if t.total_fees < cfg.min_total_fees then
      .TotalFeesTooLow t.total_fees cfg.min_total_fees
    else if t.tx_count > cfg.max_tx_count then
      .TooManyTransactions t.tx_count cfg.max_tx_count
    else if avg_fee < min_avg_fee_used then
      .AverageFeeTooLow avg_fee min_avg_fee_used
    else
      .Ok
  { accepted := reason = VerdictReason.Ok
    reason := reason
    min_avg_fee_used := min_avg_fee_used
    fee_tier := fee_tier
    avg_fee := avg_fee }

/-- `MAX_LOG` from `run_tcp_server` in `main.rs`. -/
def MAX_LOG : Nat := 1000

/-- The ring push of `run_tcp_server` in `main.rs` (lines 321-328):
`guard.push(logged)` then `if guard.len() > MAX_LOG { guard.remove(0) }`. -/
def push_verdict (ring : List LoggedVerdict) (v : LoggedVerdict) :
    List LoggedVerdict :=
  let g := ring ++ [v]
  if g.length > MAX_LOG then g.drop 1 else g

/-- `load_verdict_log` from `main.rs` (lines 76-99), over the parse outcome
of each line of the persistent log (`none` for an empty or corrupt line,
which the source skips).  Every parsed entry is pushed onto the in-memory
list — there is no trimming to a trailing window — and the id counter is
initialized to `max(log_id) + 1` (u64 arithmetic). -/
def load_verdict_log (parsedLines : List (Option LoggedVerdict)) :
    List LoggedVerdict × Nat :=
  let entries := parsedLines.filterMap id
  let max_id := entries.foldl (fun m v => max m v.log_id) 0
  (entries, (max_id + 1) % 2 ^ 64)

/-- Maximum `log_id` present in the scanned log (0 when empty), as computed
by the fold in `load_verdict_log`. -/
def max_log_id (entries : List LoggedVerdict) : Nat :=
  entries.foldl (fun m v => max m v.log_id) 0

/-- The `log_id` allocated to the k-th decision of a run:
`fetch_add` on the `AtomicU64` counter seeded by `load_verdict_log`
(u64 wrap-around made explicit). -/
def alloc_log_id (entries : List LoggedVerdict) (k : Nat) : Nat :=
  ((max_log_id entries + 1) % 2 ^ 64 + k) % 2 ^ 64

/-! ## CSV export (`get_verdicts_csv` in `main.rs`) -/

/-- The CSV header line pushed by `get_verdicts_csv` (without its trailing
newline). -/
def csv_header : String :=
  "log_id,template_id,height,total_fees,tx_count,accepted,fee_tier,min_avg_fee_used,avg_fee_sats_per_tx,reason,timestamp"

/-- Rust `Display` of a `bool`. -/
def bool_str (b : Bool) : String :=
  if b then "true" else "false"

/-- `reason.replace('"', "\"\"")` of `get_verdicts_csv`: every double-quote
character is replaced by two double quotes. -/
def escape_quotes (s : List Char) : List Char :=
  s.flatMap (fun ch => if ch = '"' then ['"', '"'] else [ch])

/-- Splitting a character sequence at newline characters, keeping empty
segments (the semantics of splitting the CSV body into lines); a string
ending in a newline yields a final empty segment. -/
def split_on_nl : List Char → List (List Char)
  | [] => [[]]
  | ch :: rest =>
    if ch = '\n' then [] :: split_on_nl rest
    else
      match split_on_nl rest with
      | [] => [[ch]]
      | l :: ls => (ch :: l) :: ls

/-- The lines of a string, splitting at every newline character. -/
def string_lines (s : String) : List String :=
  (split_on_nl s.data).map List.asString

/-- One formatted CSV record of `get_verdicts_csv`, i.e. the result of the
format string up to but not including its trailing `\n`: the eleven fields,
with `reason` defaulted to `"Ok"`, its inner double quotes doubled, and the
whole reason wrapped in double quotes. -/
def csv_row (v : LoggedVerdict) : String :=
  let reason := v.reason.getD "Ok"
  let escaped_reason : String := ⟨escape_quotes reason.data⟩
  toString v.log_id ++ "," ++ toString v.template_id ++ "," ++
    toString v.height ++ "," ++ toString v.total_fees ++ "," ++
    toString v.tx_count ++ "," ++ bool_str v.accepted ++ "," ++
    v.fee_tier ++ "," ++ toString v.min_avg_fee_used ++ "," ++
    toString v.avg_fee_sats_per_tx ++ ",\"" ++ escaped_reason ++ "\"," ++
    toString v.timestamp

/-- The full body produced by `get_verdicts_csv`: the header plus `"\n"`,
then for each ring entry the formatted record followed by the `\n` that ends
the format string and the `\n` appended by `writeln!`. -/
def csv_body (ring : List LoggedVerdict) : String :=
  csv_header ++ "\n" ++ String.join (ring.map (fun v => csv_row v ++ "\n\n"))

/-! ## Policy startup (`services/pool-verifier/src/state.rs` and `main`) -/

/-- `PolicyHolder` from `state.rs`. -/
structure PolicyHolder where
  config : PolicyConfig
  toml_text : String
  deriving Repr, DecidableEq

/-- `enforce_protocol` from `state.rs`. -/
def enforce_protocol (c : PolicyConfig) : Except String Unit :=
  if c.protocol_version ≠ PROTOCOL_VERSION then
    .error "policy.protocol_version does not match binary PROTOCOL_VERSION"
  else
    .ok ()

/-- `load_initial_policy` from `state.rs`: read the file, parse the
`[policy]` table, `validate`, `enforce_protocol`.  The file read and the
TOML parse are external effects, modelled as the outcome of the read and a
parse function supplied as arguments. -/
def load_initial_policy (readResult : Except String String)
    (parsePolicyTable : String → Except String PolicyConfig) :
    Except String PolicyHolder :=
  match readResult with
  | .error e => .error ("read policy file failed: " ++ e)
  | .ok contents =>
    match parsePolicyTable contents with
    | .error e => .error ("policy parse failed: " ++ e)
    | .ok cfg =>
      match cfg.validate with
      | .error e => .error ("policy validation failed: " ++ e)
      | .ok () =>
        match enforce_protocol cfg with
        | .error e => .error e
        | .ok () => .ok { config := cfg, toml_text := contents }

/-- How `main` in the verifier's `main.rs` ends its policy startup:
either it proceeds with a holder, or the process panics (terminates). -/
inductive StartupOutcome where
  | started (holder : PolicyHolder)
  | panicked (msg : String)
  deriving Repr, DecidableEq

/-- Line 137 of the verifier's `main.rs`:
`load_initial_policy(&policy_path).expect("Failed to load or construct
initial policy")` — on any load/parse/validate failure the process panics;
`safe_initial_policy` of `state.rs` is never called. -/
def main_policy_startup (readResult : Except String String)
    (parsePolicyTable : String → Except String PolicyConfig) :
    StartupOutcome :=
  match load_initial_policy readResult parsePolicyTable with
  | .ok holder => .started holder
  | .error _ => .panicked "Failed to load or construct initial policy"

/-! ## Mempool client (`services/pool-verifier/src/mempool_client.rs`) -/

/-- A JSON value, for modelling the body handed to serde. -/
inductive Json where
  | null
  | bool (b : Bool)
  | num (n : Int)
  | str (s : String)
  | arr (elems : List Json)
  | obj (fields : List (String × Json))

/-- serde deserialization of a JSON value into a `u64`: a non-negative
integer below `2 ^ 64`. -/
def json_as_u64 : Json → Option Nat
  | .num n => if 0 ≤ n ∧ n < 2 ^ 64 then some n.toNat else none
  | _ => none

/-- The three accepted names of the mempool tx-count field:
`#[serde(default, alias = "tx_count", alias = "count", alias = "size")]`. -/
def TX_COUNT_ALIASES : List String := ["tx_count", "count", "size"]

/-- The `MempoolSnapshot` struct of `mempool_client.rs` after
deserialization. -/
structure MempoolSnapshotV where
  tx_count : Nat
  timestamp : Option Nat
  deriving Repr, DecidableEq

/-- serde's handling of the aliased, defaulted `tx_count` field, given the
object entries whose key is one of the aliases: absent means the default 0,
one occurrence must deserialize as `u64`, more than one is a duplicate-field
error. -/
def parse_tx_count_field : List (String × Json) → Option Nat
  | [] => some 0
  | [kv] => json_as_u64 kv.2
  | _ => none

/-- serde's handling of the defaulted `timestamp : Option<u64>` field, given
the object entries keyed `timestamp`: absent or `null` means `none`, one
non-null occurrence must deserialize as `u64`. -/
def parse_timestamp_field : List (String × Json) → Option (Option Nat)
  | [] => some none
  | [(_, Json.null)] => some none
  | [kv] => (json_as_u64 kv.2).map some
  | _ => none

/-- serde deserialization of `MempoolSnapshot` from a JSON value: it must be
an object; unknown fields are ignored. -/
def parse_mempool_snapshot : Json → Option MempoolSnapshotV
  | .obj fields =>
    match parse_tx_count_field
        (fields.filter fun kv => TX_COUNT_ALIASES.contains kv.1) with
    | none => none
    | some tc =>
      match parse_timestamp_field (fields.filter fun kv => kv.1 == "timestamp") with
      | none => none
      | some ts => some { tx_count := tc, timestamp := ts }
  | _ => none

/-- The outcome of the HTTP GET issued by `fetch_mempool_tx_count`:
the request itself may fail; otherwise a response carries a success flag and
a body that either is JSON or is not (`none`). -/
inductive HttpOutcome where
  | reqError
  | response (success : Bool) (body : Option Json)

/-- `fetch_mempool_tx_count` from `mempool_client.rs`: `None` on request
error, on a non-success status, and on a body that does not deserialize as
`MempoolSnapshot`; otherwise `Some(snapshot.tx_count)` (staleness is only
logged). -/
def fetch_mempool_tx_count : HttpOutcome → Option Nat
  | .reqError => none
  | .response success body =>
    if success then
      match body with
      | none => none
      | some j =>
        match parse_mempool_snapshot j with
        | none => none
        | some s => some s.tx_count
    else none

/-! ## Template sources (`services/template-manager/src/main.rs`) -/

/-- `TemplateFingerprint` from the template manager's `main.rs`. -/
structure TemplateFingerprint where
  height : Nat
  prev_hash : String
  tx_count : Nat
  total_fees : Nat
  txids_hash : Nat
  deriving Repr, DecidableEq

/-- A normalized `getblocktemplate` reply: height, previous block hash, the
transactions as (txid, fee) pairs, and the reported coinbase value. -/
structure RpcTemplate where
  height : Nat
  prev_hash : String
  txs : List (String × Nat)
  coinbase_value : Nat
  deriving Repr, DecidableEq

/-- The fingerprint computed by `BitcoindTemplateSource::next_template`:
`tx_count = |transactions|`, `total_fees = Σ fee`, and the
order-independent hash of the txid set.  `hash_txids` (sort then
`DefaultHasher`) is an unspecified hash, taken as a parameter. -/
def fingerprint_of (hashTxids : List String → Nat) (r : RpcTemplate) :
    TemplateFingerprint where
  height := r.height
  prev_hash := r.prev_hash
  tx_count := r.txs.length
  total_fees := (r.txs.map Prod.snd).sum
  txids_hash := hashTxids (r.txs.map Prod.fst)

/-- The fingerprints of the templates yielded by a bitcoind source along a
stream of RPC ticks, starting from a given `last_fp` state.  Each tick
mirrors one call of `BitcoindTemplateSource::next_template`: a failed RPC
tick (`none`) yields nothing and leaves `last_fp` unchanged; a successful
tick computes the fingerprint, yields nothing when it equals `last_fp`, and
otherwise stores it in `last_fp` and yields the template. -/
def bitcoind_emitted (hashTxids : List String → Nat)
    (ticks : List (Option RpcTemplate))
    (last_fp : Option TemplateFingerprint) : List TemplateFingerprint :=
  match ticks with
  | [] => []
  | none :: rest => bitcoind_emitted hashTxids rest last_fp
  | some r :: rest =>
    let fp := fingerprint_of hashTxids r
    if last_fp = some fp then bitcoind_emitted hashTxids rest last_fp
    else fp :: bitcoind_emitted hashTxids rest (some fp)

/-- `StratumTemplateSource`: the reader task forwards every
successfully-parsed `TemplatePropose` line into the channel (`none` models a
line that failed to parse and is skipped), and `next_template` returns each
channel item unchanged — there is no fingerprint state and no
deduplication. -/
def stratum_emitted (parsedLines : List (Option TemplatePropose)) :
    List TemplatePropose :=
  parsedLines.filterMap id

/-! ## Concrete inputs used by the theorems below -/

/-- The policy of the specification's test scenarios (§8): protocol 2,
prev-hash length 64, no total-fee minimum, max 10000 txs, tier thresholds
1000/5000, floors (0, 1000, 5000), reject empty, allow coinbase zero. -/
def scenario_policy : PolicyConfig where
  protocol_version := 2
  required_prevhash_len := 64
  min_total_fees := 0
  max_tx_count := 10000
  min_avg_fee := 0
  low_mempool_tx := 1000
  high_mempool_tx := 5000
  tx_count_mid_threshold := 10
  tx_count_hi_threshold := 50
  min_avg_fee_lo := 0
  min_avg_fee_mid := 1000
  min_avg_fee_hi := 5000
  max_weight_ratio := (999 : ℚ) / 1000
  reject_empty_templates := true
  reject_coinbase_zero := false

/-- A 64-character all-zero previous-block hash (valid hex). -/
def zero_hash_64 : String :=
  "0000000000000000000000000000000000000000000000000000000000000000"

/-- A 64-character previous-block hash made of `z` characters: the right
length, but not hex digits. -/
def zzz_hash_64 : String :=
  "zzzzzzzzzzzzzzzzzzzzzzzzzzzzzzzzzzzzzzzzzzzzzzzzzzzzzzzzzzzzzzzz"

/-- The scenario-1 template of the specification (§8): version 2, 10 txs,
50000 sats total fees, coinbase 312500000, zero prev-hash. -/
def scenario_template : TemplatePropose where
  version := 2
  id := 1
  block_height := 100
  prev_hash := zero_hash_64
  coinbase_value := 312500000
  tx_count := 10
  total_fees := 50000

/-- The scenario-1 template with its `prev_hash` replaced by 64 non-hex
characters of the correct length. -/
def nonhex_template : TemplatePropose :=
  { scenario_template with prev_hash := zzz_hash_64 }

/-- An empty template with a zero coinbase (and zero fees). -/
def empty_zero_coinbase_template : TemplatePropose where
  version := 2
  id := 4
  block_height := 100
  prev_hash := zero_hash_64
  coinbase_value := 0
  tx_count := 0
  total_fees := 0

/-- The default policy with `reject_empty_templates` switched off (a policy
the verifier accepts: `validate` passes). -/
def allow_empty_policy : PolicyConfig :=
  { PolicyConfig.default_with_protocol 2 with reject_empty_templates := false }

/-- The default policy with `max_weight_ratio` set to 2 — outside the
documented invariant interval (0, 1]. -/
def ratio_two_policy : PolicyConfig :=
  { PolicyConfig.default_with_protocol 2 with max_weight_ratio := 2 }

/-- A concrete logged verdict with the default "Ok" reason. -/
def sample_verdict_ok : LoggedVerdict where
  log_id := 10
  template_id := 11
  height := 100
  total_fees := 5000
  tx_count := 7
  accepted := true
  reason := none
  timestamp := 1700
  min_avg_fee_used := 0
  fee_tier := "low"
  avg_fee_sats_per_tx := 714

/-- A concrete logged verdict whose reason text contains double quotes. -/
def sample_verdict_reject : LoggedVerdict where
  log_id := 12
  template_id := 13
  height := 101
  total_fees := 40
  tx_count := 2
  accepted := false
  reason := some "avg \"low\""
  timestamp := 1701
  min_avg_fee_used := 500
  fee_tier := "mid"
  avg_fee_sats_per_tx := 20

/-- A concrete logged verdict carrying `log_id = 5`, for the id-counter and
ring theorems. -/
def sample_verdict_id5 : LoggedVerdict :=
  { sample_verdict_ok with log_id := 5 }

/-- The JSON object `\x7b"bytes": 3\x7d`: a valid JSON body containing none
of the keys `tx_count`, `count`, `size`. -/
def keyless_fields : List (String × Json) := [("bytes", Json.num 3)]

/-- What `keyless_fields` deserializes to: the defaulted snapshot. -/
def keyless_snapshot : MempoolSnapshotV where
  tx_count := 0
  timestamp := none

end Veldra

namespace Veldra

/-! ## Theorems -/

/-- C1: the specification's rule 3 (`prev_hash` not all hex digits →
`InvalidPrevHash`) has no counterpart in the code.  A template whose
`prev_hash` has the required length but consists of 64 non-hex characters
passes both the policy-module evaluator `evaluate_dynamic` (verdict `Ok`)
and the verifier's inline TCP decision sequence (`accepted`): neither path
checks hex digits, and the pool-verifier's own `VerdictReason` enum has no
`InvalidPrevHash` variant at all. -/
theorem c1_no_hex_check_code_eval :
    is_all_hex nonhex_template.prev_hash = false ∧
    nonhex_template.prev_hash.length = scenario_policy.required_prevhash_len ∧
    evaluate_dynamic nonhex_template scenario_policy (some 500) =
      (VerdictReason.Ok, FeeTier.low, 0) ∧
    (tcp_decide scenario_policy nonhex_template (some 500)).accepted = true := by
  refine ⟨by decide, by decide, by decide, by decide⟩

/-- C2: an unknown mempool count is not routed by an
`unknown_mempool_as_high` flag (no such field exists in the
`PolicyConfig` of `policy.rs`); `effective_min_avg_fee_dynamic` maps
`None` to a count of 0, so with `low_mempool_tx = 1000`,
`high_mempool_tx = 5000` and floors (0, 1000, 5000) the scenario-6
template is evaluated at tier Low with floor 0 (and accepted), not at
tier High with floor 5000. -/
theorem c2_unknown_mempool_treated_as_zero :
    scenario_policy.effective_min_avg_fee_dynamic none = (0, FeeTier.low) ∧
    evaluate_dynamic scenario_template scenario_policy none =
      (VerdictReason.Ok, FeeTier.low, 0) ∧
    (tcp_decide scenario_policy scenario_template none).fee_tier = FeeTier.low := by
  refine ⟨by decide, by decide, by decide⟩

/-- C3: the verifier's `main` runs
`load_initial_policy(&policy_path).expect(...)`, so a failing policy file
read, a failing parse, a failing validation, or a protocol mismatch each
panic the process at startup; no permissive default policy is installed
(`safe_initial_policy` of `state.rs` is never called by `main`). -/
theorem c3_policy_failure_panics_startup :
    main_policy_startup (Except.error "No such file or directory")
        (fun _ => Except.error "unreached") =
      StartupOutcome.panicked "Failed to load or construct initial policy" ∧
    main_policy_startup (Except.ok "not a policy table")
        (fun _ => Except.error "missing policy table at top level") =
      StartupOutcome.panicked "Failed to load or construct initial policy" ∧
    main_policy_startup (Except.ok "policy with bad fields")
        (fun _ => Except.ok { scenario_policy with required_prevhash_len := 0 }) =
      StartupOutcome.panicked "Failed to load or construct initial policy" := by
  refine ⟨rfl, rfl, rfl⟩

/-- C9: `get_verdicts_csv` formats each ring entry with a format string that
itself ends in a newline and writes it with `writeln!`, which appends a
second newline; the body is therefore the header line followed by a data row
and a blank line per ring entry.  For a two-entry ring the body splits into
six lines — header, row, blank, row, blank, trailing empty — where the claim
implies four (header, two rows, trailing empty).  The rows themselves carry
the eleven fields in the claimed order with the reason double-quoted and
inner quotes doubled. -/
theorem c9_csv_blank_line_after_each_row :
    string_lines (csv_body [sample_verdict_ok, sample_verdict_reject]) =
      [csv_header,
       "10,11,100,5000,7,true,low,0,714,\"Ok\",1700", "",
       "12,13,101,40,2,false,mid,500,20,\"avg \"\"low\"\"\",1701", "",
       ""] ∧
    (string_lines (csv_body [sample_verdict_ok, sample_verdict_reject])).length
      = 6 := by
  refine ⟨by decide, by decide⟩

/-- C4 counterexample: in the verifier's TCP decision sequence the
coinbase-zero check is not guarded by `reject_coinbase_zero` or by
`tx_count > 0`, so an empty template with a zero coinbase is rejected as
`CoinbaseZero` whenever `reject_empty_templates` is off — the claim's
"never CoinbaseValueZeroRejected when tx_count = 0" fails on this path. -/
theorem c4_counterexample_tcp_coinbase_zero_on_empty :
    empty_zero_coinbase_template.tx_count = 0 ∧
    (tcp_decide allow_empty_policy empty_zero_coinbase_template none).reason =
      VerdictReason.CoinbaseZero := by
  refine ⟨by decide, by decide⟩

/-- C4 (amended): in the policy-module evaluators (`evaluate` and
`evaluate_dynamic`) the coinbase-zero rejection fires only when
`reject_coinbase_zero` is enabled, `coinbase_value = 0` and `tx_count > 0`,
and the empty-template rule precedes it; hence a template with
`tx_count = 0` is never rejected as `CoinbaseZero` by these evaluators.
(The TCP path is exempted: see the counterexample.) -/
theorem c4_no_coinbase_zero_on_empty_evaluators
    (t : TemplatePropose) (c : PolicyConfig) (m : Option Nat)
    (h : t.tx_count = 0) :
    (evaluate_dynamic t c m).1 ≠ VerdictReason.CoinbaseZero ∧
    evaluate t c ≠ VerdictReason.CoinbaseZero := by
  constructor
  · simp only [evaluate_dynamic]
    split_ifs <;> simp_all
  · simp only [evaluate]
    split_ifs <;> simp_all

/-- C4 witness: the amended theorem applied to a concrete empty template. -/
theorem c4_witness :
    empty_zero_coinbase_template.tx_count = 0 ∧
    ((evaluate_dynamic empty_zero_coinbase_template allow_empty_policy none).1 ≠
        VerdictReason.CoinbaseZero ∧
      evaluate empty_zero_coinbase_template allow_empty_policy ≠
        VerdictReason.CoinbaseZero) :=
  ⟨by decide,
   c4_no_coinbase_zero_on_empty_evaluators empty_zero_coinbase_template
     allow_empty_policy none (by decide)⟩

/-- C8 counterexample: `PolicyConfig::validate` never inspects
`max_weight_ratio`; a configuration with `max_weight_ratio = 2` — outside
the documented interval (0, 1] — is accepted. -/
theorem c8_counterexample_ratio_unchecked :
    ratio_two_policy.validate = Except.ok () ∧
    ¬ ratio_two_policy.max_weight_ratio ≤ 1 := by
  constructor
  · rfl
  · norm_num [ratio_two_policy, PolicyConfig.default_with_protocol]

/-- C8 (amended): `validate` accepts a configuration exactly when
`required_prevhash_len ≥ 1`, `max_tx_count ≥ 1`,
`low_mempool_tx ≤ high_mempool_tx` and `tx_count_mid_threshold ≤
tx_count_hi_threshold`; `max_weight_ratio ∈ (0, 1]` is not checked. -/
theorem c8_validate_characterization (c : PolicyConfig) :
    c.validate = Except.ok () ↔
      (1 ≤ c.required_prevhash_len ∧ 1 ≤ c.max_tx_count ∧
       c.low_mempool_tx ≤ c.high_mempool_tx ∧
       c.tx_count_mid_threshold ≤ c.tx_count_hi_threshold) := by
  simp only [PolicyConfig.validate]
  split_ifs <;> (simp_all; try omega)

/-- C5 counterexample: `StratumTemplateSource::next_template` forwards every
parsed template without consulting any fingerprint; a bridge stream that
delivers the same template twice makes the source yield two successive
identical templates (hence equal fingerprints). -/
theorem c5_counterexample_stratum_no_dedup :
    stratum_emitted [some scenario_template, some scenario_template] =
      [scenario_template, scenario_template] ∧
    ¬ List.Chain' (fun a b => a ≠ b)
        (stratum_emitted [some scenario_template, some scenario_template]) := by
  constructor
  · rfl
  · intro h
    simp [stratum_emitted, List.Chain'] at h

end Veldra

namespace Veldra

/-- Helper for the bitcoind deduplication theorem: along any tick stream the
emitted fingerprints form a chain of pairwise-distinct neighbours, and when
the source state already holds a fingerprint, the first emission differs
from it. -/
theorem bitcoind_emitted_chain_aux (hashTxids : List String → Nat)
    (ticks : List (Option RpcTemplate)) :
    ∀ last_fp : Option TemplateFingerprint,
      List.Chain' (fun a b => a ≠ b) (bitcoind_emitted hashTxids ticks last_fp) ∧
      (∀ g y, last_fp = some g →
        (bitcoind_emitted hashTxids ticks last_fp).head? = some y → y ≠ g) := by
  induction ticks with
  | nil =>
    intro last_fp
    constructor
    · simp [bitcoind_emitted]
    · intro g y _ hy
      simp [bitcoind_emitted] at hy
  | cons tick rest ih =>
    intro last_fp
    cases tick with
    | none =>
      have h := ih last_fp
      constructor
      · simpa [bitcoind_emitted] using h.1
      · intro g y hg hy
        exact h.2 g y hg (by simpa [bitcoind_emitted] using hy)
    | some r =>
      by_cases heq : last_fp = some (fingerprint_of hashTxids r)
      · have h := ih last_fp
        constructor
        · simpa [bitcoind_emitted, heq] using h.1
        · intro g y hg hy
          exact h.2 g y hg (by simpa [bitcoind_emitted, heq] using hy)
      · have h := ih (some (fingerprint_of hashTxids r))
        have hemit : bitcoind_emitted hashTxids (some r :: rest) last_fp =
            fingerprint_of hashTxids r ::
              bitcoind_emitted hashTxids rest (some (fingerprint_of hashTxids r)) := by
          simp [bitcoind_emitted, heq]
        constructor
        · rw [hemit, List.chain'_cons']
          refine ⟨?_, h.1⟩
          intro y hy
          exact (h.2 (fingerprint_of hashTxids r) y rfl hy).symm
        · intro g y hg hy
          rw [hemit] at hy
          simp only [List.head?_cons, Option.some.injEq] at hy
          subst hy
          intro hcontra
          exact heq (hg.trans (congrArg some hcontra.symm))

/-- C5 (amended): the bitcoind (polling) template source deduplicates by
fingerprint — along any stream of RPC ticks, starting with no remembered
fingerprint, it never yields two successive templates with equal
fingerprints.  (The stratum source does not: see the counterexample.) -/
theorem c5_bitcoind_no_successive_equal_fingerprints
    (hashTxids : List String → Nat) (ticks : List (Option RpcTemplate)) :
    List.Chain' (fun a b => a ≠ b) (bitcoind_emitted hashTxids ticks none) :=
  (bitcoind_emitted_chain_aux hashTxids ticks none).1

end Veldra

namespace Veldra

/-- Helper: replaying a log whose lines all parse to the same entry seeds
the ring with exactly that many entries. -/
theorem filterMap_id_replicate_some {α : Type} (n : Nat) (a : α) :
    List.filterMap id (List.replicate n (some a)) = List.replicate n a := by
  induction n with
  | zero => rfl
  | succ m ih => simp [List.replicate_succ, ih]

/-- C6 counterexample: `load_verdict_log` seeds the in-memory ring with
every parseable line of the persistent log — there is no trimming to a
trailing window — so a 1001-line log yields a ring of 1001 entries, above
the claimed bound of 1000; and a subsequent decision's push removes only
one oldest entry after appending, leaving the ring at 1001 entries still. -/
theorem c6_counterexample_ring_seeded_beyond_bound :
    1000 <
      ((load_verdict_log (List.replicate 1001 (some sample_verdict_ok))).1).length ∧
    1000 <
      (push_verdict
        (load_verdict_log (List.replicate 1001 (some sample_verdict_ok))).1
        sample_verdict_reject).length := by
  have h : (load_verdict_log (List.replicate 1001 (some sample_verdict_ok))).1 =
      List.replicate 1001 sample_verdict_ok :=
    filterMap_id_replicate_some 1001 sample_verdict_ok
  constructor
  · rw [h, List.length_replicate]
    omega
  · rw [h]
    simp only [push_verdict, MAX_LOG, List.length_append, List.length_replicate,
      List.length_cons, List.length_nil]
    rw [if_pos (by omega)]
    simp only [List.length_drop, List.length_append, List.length_replicate,
      List.length_cons, List.length_nil]
    omega

/-- Helper: one ring push never raises the length above the maximum of the
current length and the cap. -/
theorem push_verdict_length_bound (ring : List LoggedVerdict)
    (v : LoggedVerdict) :
    (push_verdict ring v).length ≤ max ring.length MAX_LOG := by
  simp only [push_verdict]
  split_ifs with h
  · simp_all
  · simp_all

/-- C6 (amended): the in-memory ring is bounded by
`max (seeded size) 1000`, not by 1000: startup replay seeds the ring with
every parseable line of the persistent log, and each decision's push drops
one oldest entry only when the length exceeds 1000.  The claimed bound of
1000 therefore holds only when the log held at most 1000 parseable lines at
startup. -/
theorem c6_ring_bounded_by_seed_or_cap
    (parsedLines : List (Option LoggedVerdict)) (pushes : List LoggedVerdict) :
    (pushes.foldl push_verdict (load_verdict_log parsedLines).1).length ≤
      max (load_verdict_log parsedLines).1.length MAX_LOG := by
  generalize (load_verdict_log parsedLines).1 = ring
  induction pushes generalizing ring with
  | nil => simp
  | cons p ps ih =>
    simp only [List.foldl_cons]
    have h1 := ih (push_verdict ring p)
    have h2 := push_verdict_length_bound ring p
    omega

/-- C7: within a run, the verdict `log_id`s are allocated by a counter
seeded with `max(log_id) + 1` from the scanned persistent log and bumped by
`fetch_add`; as long as the u64 counter does not wrap (fewer than
`2 ^ 64 - max(log_id)` allocations, which the hypothesis states), every
allocated id exceeds the maximum id persisted at startup and the sequence
of allocated ids is strictly increasing. -/
theorem c7_log_id_strictly_increasing
    (entries : List LoggedVerdict) (n j k : Nat)
    (hn : max_log_id entries + n < 2 ^ 64) (hjk : j < k) (hk : k < n) :
    max_log_id entries < alloc_log_id entries j ∧
    alloc_log_id entries j < alloc_log_id entries k := by
  have h1 : (max_log_id entries + 1) % 2 ^ 64 = max_log_id entries + 1 :=
    Nat.mod_eq_of_lt (by omega)
  simp only [alloc_log_id, h1]
  rw [Nat.mod_eq_of_lt (by omega), Nat.mod_eq_of_lt (by omega)]
  omega

/-- C7 witness: three allocations after replaying a log whose maximum
`log_id` is 5 give ids above 5, in strictly increasing order. -/
theorem c7_witness :
    (max_log_id [sample_verdict_id5] + 3 < 2 ^ 64 ∧ 0 < 2 ∧ 2 < 3) ∧
    (max_log_id [sample_verdict_id5] < alloc_log_id [sample_verdict_id5] 0 ∧
     alloc_log_id [sample_verdict_id5] 0 < alloc_log_id [sample_verdict_id5] 2) :=
  ⟨⟨by decide, by decide, by decide⟩,
   c7_log_id_strictly_increasing [sample_verdict_id5] 3 0 2
     (by decide) (by decide) (by decide)⟩

end Veldra

namespace Veldra

/-- C10: the serde `default` on the aliased tx-count field makes a
success response whose JSON body deserializes with none of the keys
`tx_count`, `count`, `size` come back as `Some(0)` — a known, zero-tx
mempool, which selects the Low tier whenever `low_mempool_tx > 0` — and
`fetch_mempool_tx_count` returns `None` exactly when the request fails, the
status is non-success, or the body does not deserialize as the snapshot
struct. -/
theorem c10_mempool_fetch_default_zero
    (fields : List (String × Json)) (snap : MempoolSnapshotV)
    (c : PolicyConfig) (o : HttpOutcome)
    (hparse : parse_mempool_snapshot (Json.obj fields) = some snap)
    (hkeys : (fields.all fun kv => !(TX_COUNT_ALIASES.contains kv.1)) = true)
    (hlow : 0 < c.low_mempool_tx) :
    fetch_mempool_tx_count (.response true (some (.obj fields))) = some 0 ∧
    c.effective_min_avg_fee_dynamic
        (fetch_mempool_tx_count (.response true (some (.obj fields)))) =
      (c.min_avg_fee_lo, FeeTier.low) ∧
    (fetch_mempool_tx_count o = none ↔
      (o = HttpOutcome.reqError ∨
       (∃ b, o = HttpOutcome.response false b) ∨
       (∃ j, o = HttpOutcome.response true j ∧
         j.bind parse_mempool_snapshot = none))) := by
  have hfil : fields.filter (fun kv => TX_COUNT_ALIASES.contains kv.1) = [] := by
    rw [List.filter_eq_nil_iff]
    intro a ha
    have h := List.all_eq_true.mp hkeys a ha
    simp only [Bool.not_eq_true'] at h
    simpa using h
  have htc : snap.tx_count = 0 := by
    simp only [parse_mempool_snapshot, hfil, parse_tx_count_field] at hparse
    cases hts : parse_timestamp_field (fields.filter fun kv => kv.1 == "timestamp") with
    | none => rw [hts] at hparse; simp at hparse
    | some ts =>
      rw [hts] at hparse
      simp only [Option.some.injEq] at hparse
      rw [← hparse]
  have hfetch : fetch_mempool_tx_count (.response true (some (.obj fields))) = some 0 := by
    simp [fetch_mempool_tx_count, hparse, htc]
  refine ⟨hfetch, ?_, ?_⟩
  · rw [hfetch]
    simp only [PolicyConfig.effective_min_avg_fee_dynamic, Option.getD_some]
    rw [if_pos hlow]
  · cases o with
    | reqError => simp [fetch_mempool_tx_count]
    | response success body =>
      cases success with
      | false => simp [fetch_mempool_tx_count]
      | true =>
        cases body with
        | none => simp [fetch_mempool_tx_count]
        | some j =>
          cases hp : parse_mempool_snapshot j with
          | none => simp [fetch_mempool_tx_count, hp]
          | some s => simp [fetch_mempool_tx_count, hp]

/-- C10 witness: the theorem applied to the JSON body with the single field
"bytes" (none of the tx-count keys), the scenario policy, and a failed
request. -/
theorem c10_witness :
    (parse_mempool_snapshot (Json.obj keyless_fields) = some keyless_snapshot ∧
     (keyless_fields.all fun kv => !(TX_COUNT_ALIASES.contains kv.1)) = true ∧
     0 < scenario_policy.low_mempool_tx) ∧
    (fetch_mempool_tx_count (.response true (some (.obj keyless_fields))) = some 0 ∧
     scenario_policy.effective_min_avg_fee_dynamic
        (fetch_mempool_tx_count (.response true (some (.obj keyless_fields)))) =
       (scenario_policy.min_avg_fee_lo, FeeTier.low) ∧
     (fetch_mempool_tx_count HttpOutcome.reqError = none ↔
       (HttpOutcome.reqError = HttpOutcome.reqError ∨
        (∃ b, HttpOutcome.reqError = HttpOutcome.response false b) ∨
        (∃ j, HttpOutcome.reqError = HttpOutcome.response true j ∧
          j.bind parse_mempool_snapshot = none)))) :=
  ⟨⟨rfl, rfl, by decide⟩,
   c10_mempool_fetch_default_zero keyless_fields keyless_snapshot
     scenario_policy HttpOutcome.reqError rfl rfl (by decide)⟩

end Veldra
